import Mathlib

/-
  Verification of the adaptive job-processing core of wp-image-engine.

  Shallow embedding of:
  - src/services/retry.ts        (calculateBackoff, withRetry, sleep)
  - src/hooks/useJobQueue.ts     (adaptive job queue)
  - src/services/circuitBreaker.ts (CircuitBreaker and the error taxonomy
    from the appended errors.ts module)

  Durations and timestamps are modelled as rationals (JS numbers),
  Date.now() timestamps for the breaker as integers.  The random jitter
  draw and the random concurrency ramp probe are modelled as explicit
  inputs.  Asynchronous interleaving of queue jobs is modelled by a
  small-step relation whose atomic steps are exactly the synchronous
  blocks of the source between awaits.
-/

namespace WPIE

/-! ### services/retry.ts : configuration and backoff -/

structure RetryConfig where
  maxRetries : Nat
  baseDelay : ℚ
  maxDelay : ℚ
  backoffMultiplier : ℚ
deriving DecidableEq

def DEFAULT_RETRY_CONFIG : RetryConfig :=
  { maxRetries := 3, baseDelay := 1000, maxDelay := 30000, backoffMultiplier := 2 }

/-- `calculateBackoff` from retry.ts, with the `Math.random() * 1000`
jitter draw made an explicit argument. -/
def calculateBackoff (attempt : Nat) (config : RetryConfig) (jitter : ℚ) : ℚ :=
  min (config.baseDelay * config.backoffMultiplier ^ attempt + jitter) config.maxDelay

/-- The jitter-free floor of the backoff, used to state monotonicity. -/
def backoffFloor (attempt : Nat) (config : RetryConfig) : ℚ :=
  min (config.baseDelay * config.backoffMultiplier ^ attempt) config.maxDelay

/-! ### services/retry.ts : withRetry

The operation is modelled as a function from the attempt index to an
`Except`; the abort signal as an optional absolute time at which it
fires; `sleep` advances the clock by the full delay (the source's
`sleep` is a bare `setTimeout` and does not observe the signal). -/

structure RetryErr where
  isRateLimit : Bool
  retryAfterSecs : Option ℚ
deriving DecidableEq

inductive RetryOutcome (A : Type) where
  | ok (a : A)
  | errThrown (e : RetryErr)
  | abortErrThrown
deriving DecidableEq

structure RetryRun (A : Type) where
  outcome : RetryOutcome A
  finish : ℚ
  opCalls : Nat
deriving DecidableEq

def signalAborted (abortAt : Option ℚ) (now : ℚ) : Bool :=
  match abortAt with
  | none => false
  | some t => decide (t ≤ now)

/-- Delay actually slept by withRetry: the backoff, extended by a
RateLimitError's truthy `retryAfter` hint (seconds). -/
def retrySleepDelay (attempt : Nat) (config : RetryConfig) (jitter : ℚ) (e : RetryErr) : ℚ :=
  let base := calculateBackoff attempt config jitter
  match e.retryAfterSecs with
  | some ra => if e.isRateLimit ∧ ra ≠ 0 then max base (ra * 1000) else base
  | none => base

def withRetryGo {A : Type} (config : RetryConfig) (shouldRetry : RetryErr → Nat → Bool)
    (op : Nat → Except RetryErr A) (jitter : Nat → ℚ) (abortAt : Option ℚ) :
    Nat → Nat → ℚ → Nat → RetryRun A
  | remaining, attempt, now, calls =>
    if signalAborted abortAt now then ⟨.abortErrThrown, now, calls⟩
    else
      match op attempt with
      | .ok a => ⟨.ok a, now, calls + 1⟩
      | .error e =>
        if signalAborted abortAt now then ⟨.errThrown e, now, calls + 1⟩
        else
          match remaining with
          | 0 => ⟨.errThrown e, now, calls + 1⟩
          | r + 1 =>
            if shouldRetry e attempt then
              withRetryGo config shouldRetry op jitter abortAt r (attempt + 1)
                (now + retrySleepDelay attempt config (jitter attempt) e) (calls + 1)
            else ⟨.errThrown e, now, calls + 1⟩

/-- `withRetry` from retry.ts: up to `maxRetries + 1` attempts starting
at time 0. -/
def withRetryRun {A : Type} (config : RetryConfig) (shouldRetry : RetryErr → Nat → Bool)
    (op : Nat → Except RetryErr A) (jitter : Nat → ℚ) (abortAt : Option ℚ) : RetryRun A :=
  withRetryGo config shouldRetry op jitter abortAt config.maxRetries 0 0 0

def alwaysFailRetryable : Nat → Except RetryErr Unit :=
  fun _ => .error ⟨false, none⟩

def alwaysRetry : RetryErr → Nat → Bool := fun _ _ => true

/-- The concrete run used to settle the cancellation-during-backoff claim:
default config, zero jitter, operation always fails retryably, the abort
signal fires at t = 500, i.e. in the middle of the first 1000ms backoff
sleep. -/
def midSleepAbortRun : RetryRun Unit :=
  withRetryRun DEFAULT_RETRY_CONFIG alwaysRetry alwaysFailRetryable (fun _ => 0) (some 500)

/-! ### hooks/useJobQueue.ts : the adaptive queue

One `QState` holds the synchronous mutable state of the hook
(`queueRef`, `activeJobsRef` keys, pause flag, adaptive concurrency,
consecutive error counter, metrics).  The jobs whose catch-handler is
parked in its backoff sleep are tracked in `sleeping` (their ids are
still in `active`, exactly as in the source where the map entry is only
deleted in the `finally`). -/

structure Job where
  id : Nat
  priority : Int
  retries : Nat
deriving DecidableEq

structure QCfg where
  concurrency : Nat
  maxRetries : Nat
  retryDelay : ℚ
deriving DecidableEq

structure QState where
  pending : List Job
  active : List Nat
  sleeping : List (Job × ℚ)
  isPaused : Bool
  currentConcurrency : Nat
  consecutiveErrors : Nat
  completed : Nat
  failed : Nat
  retried : Nat
  total : Nat
deriving DecidableEq

def initQ (cfg : QCfg) : QState :=
  { pending := [], active := [], sleeping := [], isPaused := false,
    currentConcurrency := cfg.concurrency, consecutiveErrors := 0,
    completed := 0, failed := 0, retried := 0, total := 0 }

/-- `addJobs`: append with retries reset to 0; bump total. -/
def addJobs (s : QState) (jobs : List Job) : QState :=
  { s with pending := s.pending ++ jobs.map (fun j => { j with retries := 0 }),
           total := s.total + jobs.length }

/-- Stable insertion for the descending priority sort
(`(a, b) => (b.priority || 0) - (a.priority || 0)`): the inserted
element passes only strictly-higher-priority elements. -/
def insertByPriority (j : Job) : List Job → List Job
  | [] => [j]
  | k :: ks => if j.priority < k.priority then k :: insertByPriority j ks else j :: k :: ks

def sortByPriority : List Job → List Job
  | [] => []
  | j :: js => insertByPriority j (sortByPriority js)

/-- `processNext` up to (and including) starting one job: guards on
pause and the adaptive limit, sorts, shifts the head, marks it active. -/
def dispatch (s : QState) : QState :=
  if s.isPaused then s
  else if s.currentConcurrency ≤ s.active.length then s
  else
    match sortByPriority s.pending with
    | [] => s
    | j :: rest => { s with pending := rest, active := j.id :: s.active }

/-- `handleSuccess`: reset the consecutive error counter, probabilistic
ramp-up (the `Math.random() > 0.8` draw is the `ramp` input). -/
def handleSuccess (cfg : QCfg) (s : QState) (ramp : Bool) : QState :=
  let s1 := { s with consecutiveErrors := 0 }
  if s1.currentConcurrency < cfg.concurrency ∧ ramp = true then
    { s1 with currentConcurrency := s1.currentConcurrency + 1 }
  else s1

/-- `handleError`: bump the consecutive error counter; after more than 2
consecutive errors scale the limit down (floor 1). -/
def handleError (s : QState) : QState :=
  let s1 := { s with consecutiveErrors := s.consecutiveErrors + 1 }
  if 2 < s1.consecutiveErrors ∧ 1 < s1.currentConcurrency then
    { s1 with currentConcurrency := max 1 (s1.currentConcurrency - 1) }
  else s1

/-- The wait computed by the queue's retry path
(`retryDelay * Math.pow(2, retries)` with `retries = job.retries + 1`). -/
def queueRetryWait (cfg : QCfg) (j : Job) : ℚ :=
  cfg.retryDelay * 2 ^ (j.retries + 1)

/-- Synchronous block of the catch-handler of `processJob` for a
retryable failure, up to the point where it starts sleeping: the job's
id is still in `active`, its re-queued copy is parked in `sleeping`. -/
def failRetryBegin (cfg : QCfg) (s : QState) (j : Job) : QState :=
  let s1 := handleError { s with retried := s.retried + 1 }
  { s1 with sleeping := ({ j with retries := j.retries + 1 }, queueRetryWait cfg j) :: s1.sleeping }

/-- Resumption after the backoff sleep: `unshift` the job at the front
of the backlog, then the `finally` removes the id from the active map. -/
def failRetryFinish (s : QState) (e : Job × ℚ) : QState :=
  { s with sleeping := s.sleeping.erase e,
           pending := e.1 :: s.pending,
           active := s.active.erase e.1.id }

/-- Exhausted retries: count as failed, remove from active.
`handleError` is NOT called on this path in the source. -/
def failPermanent (s : QState) (j : Job) : QState :=
  { s with failed := s.failed + 1, active := s.active.erase j.id }

/-- Successful processor run with a well-behaved `onJobComplete`. -/
def jobSucceed (cfg : QCfg) (s : QState) (j : Job) (ramp : Bool) : QState :=
  let s1 := handleSuccess cfg { s with completed := s.completed + 1 } ramp
  { s1 with active := s1.active.erase j.id }

/-- Successful processor run whose `onJobComplete` observer throws: the
source calls the observer inside the `try`, so the throw lands in the
catch-handler and the already-completed job takes the failure path. -/
def jobSucceedObserverThrows (cfg : QCfg) (s : QState) (j : Job) (ramp : Bool) : QState :=
  let s1 := handleSuccess cfg { s with completed := s.completed + 1 } ramp
  if j.retries + 1 ≤ cfg.maxRetries then failRetryBegin cfg s1 j
  else failPermanent s1 j

/-- Processor rejected with an AbortError: bare `return`, then the
`finally` removes the id. -/
def jobAborted (s : QState) (j : Job) : QState :=
  { s with active := s.active.erase j.id }

def pauseQ (s : QState) : QState := { s with isPaused := true }

def resumeQ (s : QState) : QState := dispatch { s with isPaused := false }

/-- `cancelAll`: abort every controller, clear the active map, clear the
backlog, clear the pause flag.  (The parked catch-handlers of sleeping
retries are plain `setTimeout`s and survive.) -/
def cancelAll (s : QState) : QState :=
  { s with active := [], pending := [], isPaused := false }

/-- One atomic synchronous block of the source, between awaits. -/
inductive QStep (cfg : QCfg) : QState → QState → Prop where
  | add (s : QState) (jobs : List Job) : QStep cfg s (addJobs s jobs)
  | disp (s : QState) : QStep cfg s (dispatch s)
  | succeed (s : QState) (j : Job) (ramp : Bool) (h : j.id ∈ s.active) :
      QStep cfg s (jobSucceed cfg s j ramp)
  | succeedThrows (s : QState) (j : Job) (ramp : Bool) (h : j.id ∈ s.active) :
      QStep cfg s (jobSucceedObserverThrows cfg s j ramp)
  | failBegin (s : QState) (j : Job) (h : j.id ∈ s.active)
      (hr : j.retries + 1 ≤ cfg.maxRetries) : QStep cfg s (failRetryBegin cfg s j)
  | failFinish (s : QState) (e : Job × ℚ) (h : e ∈ s.sleeping) :
      QStep cfg s (failRetryFinish s e)
  | failPerm (s : QState) (j : Job) (h : j.id ∈ s.active)
      (hr : cfg.maxRetries < j.retries + 1) : QStep cfg s (failPermanent s j)
  | abortedStep (s : QState) (j : Job) (h : j.id ∈ s.active) : QStep cfg s (jobAborted s j)
  | pauseStep (s : QState) : QStep cfg s (pauseQ s)
  | resumeStep (s : QState) : QStep cfg s (resumeQ s)
  | cancelStep (s : QState) : QStep cfg s (cancelAll s)

inductive QReach (cfg : QCfg) : QState → Prop where
  | init : QReach cfg (initQ cfg)
  | step {s t : QState} : QReach cfg s → QStep cfg s t → QReach cfg t

/-! Concrete trace exhibiting `active > currentConcurrency` right after
an adaptive scale-down: concurrency 3, three jobs dispatched, all three
fail while each other's catch-handlers are still in their backoff
sleeps. -/

def qcfg3 : QCfg := { concurrency := 3, maxRetries := 3, retryDelay := 2000 }

def jA : Job := { id := 1, priority := 0, retries := 0 }
def jB : Job := { id := 2, priority := 0, retries := 0 }
def jC : Job := { id := 3, priority := 0, retries := 0 }

def traceAdded : QState := addJobs (initQ qcfg3) [jA, jB, jC]

def traceDispatched : QState := dispatch (dispatch (dispatch traceAdded))

def traceLowered : QState :=
  failRetryBegin qcfg3 (failRetryBegin qcfg3 (failRetryBegin qcfg3 traceDispatched jA) jB) jC

/-! Concrete input for the observer-throw corruption: a single job whose
processor succeeded and whose `onJobComplete` observer throws. -/

def obsStart : QState := dispatch (addJobs (initQ qcfg3) [jA])

def obsAfterThrow : QState := jobSucceedObserverThrows qcfg3 obsStart jA false

def obsFinal : QState :=
  failRetryFinish obsAfterThrow ({ jA with retries := 1 }, queueRetryWait qcfg3 jA)

/-! ### services/circuitBreaker.ts -/

inductive CBState where
  | closed
  | opened
  | halfOpen
deriving DecidableEq

structure CBConfig (E : Type) where
  failureThreshold : Nat
  successThreshold : Nat
  timeout : Int
  volumeThreshold : Nat
  errorFilter : E → Bool

structure Breaker where
  state : CBState
  failures : Nat
  successes : Nat
  totalRequests : Nat
  lastFailure : Option Int
  lastSuccess : Option Int
  halfOpenSuccesses : Nat
deriving DecidableEq

def initBreaker : Breaker :=
  { state := .closed, failures := 0, successes := 0, totalRequests := 0,
    lastFailure := none, lastSuccess := none, halfOpenSuccesses := 0 }

def transitionTo (b : Breaker) (ns : CBState) : Breaker :=
  let b1 := { b with state := ns }
  match ns with
  | .closed => { b1 with failures := 0, halfOpenSuccesses := 0 }
  | .halfOpen => { b1 with halfOpenSuccesses := 0 }
  | .opened => b1

def shouldAttemptReset {E : Type} (cfg : CBConfig E) (b : Breaker) (now : Int) : Bool :=
  match b.lastFailure with
  | none => true
  | some lf => decide (cfg.timeout ≤ now - lf)

def getTimeUntilNextAttempt {E : Type} (cfg : CBConfig E) (b : Breaker) (now : Int) : Int :=
  match b.lastFailure with
  | none => 0
  | some lf => max 0 (cfg.timeout - (now - lf))

/-- `onSuccess`; second component counts listener notifications
(one per `notifyListeners` call, including the one inside
`transitionTo`). -/
def onSuccess {E : Type} (cfg : CBConfig E) (b : Breaker) (now : Int) : Breaker × Nat :=
  let b1 := { b with lastSuccess := some now, successes := b.successes + 1 }
  let p :=
    match b1.state with
    | .halfOpen =>
      let b2 := { b1 with halfOpenSuccesses := b1.halfOpenSuccesses + 1 }
      if cfg.successThreshold ≤ b2.halfOpenSuccesses then (transitionTo b2 .closed, 1)
      else (b2, 0)
    | .closed => ({ b1 with failures := 0 }, 0)
    | .opened => (b1, 0)
  (p.1, p.2 + 1)

def onFailure {E : Type} (cfg : CBConfig E) (b : Breaker) (e : E) (now : Int) : Breaker × Nat :=
  if cfg.errorFilter e = false then (b, 0)
  else
    let b1 := { b with lastFailure := some now, failures := b.failures + 1 }
    let p :=
      match b1.state with
      | .halfOpen => (transitionTo b1 .opened, 1)
      | .closed =>
        if cfg.volumeThreshold ≤ b1.totalRequests ∧ cfg.failureThreshold ≤ b1.failures
        then (transitionTo b1 .opened, 1)
        else (b1, 0)
      | .opened => (b1, 0)
    (p.1, p.2 + 1)

inductive ExecResult (E A : Type) where
  | ran (r : Except E A)
  | circuitOpen (retryAfter : Int)

structure ExecOut (E A : Type) where
  breaker : Breaker
  result : ExecResult E A
  notifs : Nat

/-- The admission block of `execute` once the fast-fail check has
passed: an open breaker (whose cooldown elapsed) transitions to
half-open (with one notification), any other state is untouched. -/
def gate (b : Breaker) : Breaker × Nat :=
  if b.state = .opened then (transitionTo b .halfOpen, 1) else (b, 0)

/-- The gated breaker after `this.totalRequests++`. -/
def gated (b : Breaker) : Breaker :=
  { (gate b).1 with totalRequests := (gate b).1.totalRequests + 1 }

/-- `CircuitBreaker.execute`, with the wrapped operation's would-be
outcome passed as `op`; `.circuitOpen` marks the fast-fail path on which
the operation is never invoked. -/
def execute {E A : Type} (cfg : CBConfig E) (b : Breaker) (now : Int) (op : Except E A) :
    ExecOut E A :=
  if b.state = .opened ∧ shouldAttemptReset cfg b now = false then
    { breaker := b, result := .circuitOpen (getTimeUntilNextAttempt cfg b now), notifs := 0 }
  else
    match op with
    | .ok a =>
      { breaker := (onSuccess cfg (gated b) now).1, result := .ran (.ok a),
        notifs := (gate b).2 + (onSuccess cfg (gated b) now).2 }
    | .error e =>
      { breaker := (onFailure cfg (gated b) e now).1, result := .ran (.error e),
        notifs := (gate b).2 + (onFailure cfg (gated b) e now).2 }

def resetB (_b : Breaker) : Breaker := initBreaker

def forceOpen (b : Breaker) (now : Int) : Breaker :=
  { transitionTo b .opened with lastFailure := some now }

def forceClose (b : Breaker) : Breaker := transitionTo b .closed

structure CBStats where
  state : CBState
  failures : Nat
  successes : Nat
  totalRequests : Nat
  lastFailure : Option Int
  lastSuccess : Option Int
  nextAttempt : Option Int
deriving DecidableEq

/-- `getStats`; `none` models the `lastFailure!` non-null assertion
being evaluated with a null `lastFailure`. -/
def getStats {E : Type} (cfg : CBConfig E) (b : Breaker) : Option CBStats :=
  if b.state = .opened then
    match b.lastFailure with
    | none => none
    | some lf =>
      some { state := b.state, failures := b.failures, successes := b.successes,
             totalRequests := b.totalRequests, lastFailure := b.lastFailure,
             lastSuccess := b.lastSuccess, nextAttempt := some (lf + cfg.timeout) }
  else
    some { state := b.state, failures := b.failures, successes := b.successes,
           totalRequests := b.totalRequests, lastFailure := b.lastFailure,
           lastSuccess := b.lastSuccess, nextAttempt := none }

/-- Breakers reachable through the public surface: `execute`, `reset`,
`forceOpen`, `forceClose`. -/
inductive CBReach {E : Type} (cfg : CBConfig E) : Breaker → Prop where
  | init : CBReach cfg initBreaker
  | exec {b : Breaker} (now : Int) (op : Except E Unit) :
      CBReach cfg b → CBReach cfg (execute cfg b now op).breaker
  | rst {b : Breaker} : CBReach cfg b → CBReach cfg (resetB b)
  | fOpen {b : Breaker} (now : Int) : CBReach cfg b → CBReach cfg (forceOpen b now)
  | fClose {b : Breaker} : CBReach cfg b → CBReach cfg (forceClose b)

/-- The breaker configuration of the scenario claim:
failureThreshold 3, successThreshold 2, volumeThreshold 3. -/
def scenarioCfg (T : Int) : CBConfig Unit :=
  { failureThreshold := 3, successThreshold := 2, timeout := T,
    volumeThreshold := 3, errorFilter := fun _ => true }

def defaultCBConfig : CBConfig Unit :=
  { failureThreshold := 5, successThreshold := 2, timeout := 30000,
    volumeThreshold := 5, errorFilter := fun _ => true }

/-! ### services/errors.ts : taxonomy and retryability -/

structure APIErrorV where
  statusCode : Option Nat
  isRetryable : Bool
deriving DecidableEq

/-- Raw JS error values as far as `isRetryableError` can distinguish
them: APIError instances (including subclasses), TypeError, DOMException
AbortError, plain Errors. -/
inductive JSError where
  | api (a : APIErrorV)
  | typeErr (messageHasFetch : Bool)
  | domAbort
  | validationErr
  | generic
deriving DecidableEq

/-- `isRetryableError` from errors.ts. -/
def isRetryableError : JSError → Bool
  | .api a => a.isRetryable
  | .typeErr _ => true
  | _ => false

/-- The spec's §4.1 error kinds. -/
inductive ErrorKind where
  | network
  | timeoutKind
  | rateLimited
  | authentication
  | serverError
  | clientError
  | cancelled
  | validation
  | unknown
deriving DecidableEq

/-- The classified errors: exactly the values produced by the
classifiers `APIError.fromResponse`, `APIError.fromError` (on
non-APIError inputs) and the error subclasses. -/
inductive ClassifiedError where
  | fromResponseE (status : Nat)
  | networkE
  | cancelledE
  | unknownE
  | rateLimitE
  | authE
  | validationE
deriving DecidableEq

/-- The JS value each classified error denotes, with the retryability
flag computed exactly as the classifiers in errors.ts compute it. -/
def toJS : ClassifiedError → JSError
  | .fromResponseE s => .api { statusCode := some s, isRetryable := decide (500 ≤ s) || decide (s = 429) }
  | .networkE => .api { statusCode := none, isRetryable := true }
  | .cancelledE => .api { statusCode := none, isRetryable := false }
  | .unknownE => .api { statusCode := none, isRetryable := false }
  | .rateLimitE => .api { statusCode := some 429, isRetryable := true }
  | .authE => .api { statusCode := some 401, isRetryable := false }
  | .validationE => .validationErr

/-- Modelled from the spec, section 4.1: the kind assigned to each
classified error by the taxonomy's words (used as the spec side of the
refinement comparison with the source's `isRetryableError`). -/
def kindOf : ClassifiedError → ErrorKind
  | .fromResponseE s =>
    if 500 ≤ s then .serverError
    else if s = 429 then .rateLimited
    else if s = 401 ∨ s = 403 then .authentication
    else if 400 ≤ s then .clientError
    else .unknown
  | .networkE => .network
  | .cancelledE => .cancelled
  | .unknownE => .unknown
  | .rateLimitE => .rateLimited
  | .authE => .authentication
  | .validationE => .validation

/-! ### Auxiliary definitions for the claim statements -/

/-- The section-4.2 calculator instantiated with the queue's
retryDelay 2000 as base (what the spec says the queue uses). -/
def queueBackoffCfg : RetryConfig :=
  { maxRetries := 3, baseDelay := 2000, maxDelay := 30000, backoffMultiplier := 2 }

/-- The adaptive-concurrency bounds invariant of the queue. -/
def ConcInv (cfg : QCfg) (s : QState) : Prop :=
  1 ≤ s.currentConcurrency ∧ s.currentConcurrency ≤ cfg.concurrency

/-- A breaker freshly force-opened at time 0. -/
def openedAt0 : Breaker := forceOpen initBreaker 0

/-- One failing `execute` call in the scenario configuration. -/
def failStep (T : Int) (b : Breaker) (t : Int) : Breaker :=
  (execute (scenarioCfg T) b t (Except.error () : Except Unit Unit)).breaker

/-- One successful `execute` call in the scenario configuration. -/
def okExec (T : Int) (b : Breaker) (t : Int) : ExecOut Unit Unit :=
  execute (scenarioCfg T) b t (Except.ok ())

/-- Breaker state after three consecutive counted failures from the
initial state. -/
def after3 (T t1 t2 t3 : Int) : Breaker :=
  failStep T (failStep T (failStep T initBreaker t1) t2) t3

/-- The open breaker the scenario reaches after the third failure. -/
def scenarioOpen (t3 : Int) : Breaker :=
  { state := .opened, failures := 3, successes := 0, totalRequests := 3,
    lastFailure := some t3, lastSuccess := none, halfOpenSuccesses := 0 }

/-- The half-open breaker after the first trial success at `t5`. -/
def scenarioTrial (t3 t5 : Int) : Breaker :=
  { state := .halfOpen, failures := 3, successes := 1, totalRequests := 4,
    lastFailure := some t3, lastSuccess := some t5, halfOpenSuccesses := 1 }

/-- The closed breaker after the second trial success at `t6`. -/
def scenarioClosed (t3 t6 : Int) : Breaker :=
  { state := .closed, failures := 0, successes := 2, totalRequests := 5,
    lastFailure := some t3, lastSuccess := some t6, halfOpenSuccesses := 0 }

/-! ## Theorems -/

/-- C7: calculateBackoff equals min(base * multiplier^attempt + jitter,
maxDelay) for the drawn jitter in [0, 1000); the jitter-free floor is
non-decreasing in the attempt index, and the returned delay never
exceeds maxDelay. -/
theorem claim_C7_backoff_algebra (config : RetryConfig)
    (hb : 0 ≤ config.baseDelay) (hm : 1 ≤ config.backoffMultiplier) :
    (∀ (attempt : Nat) (j : ℚ), 0 ≤ j → j < 1000 →
      calculateBackoff attempt config j
          = min (config.baseDelay * config.backoffMultiplier ^ attempt + j) config.maxDelay ∧
      calculateBackoff attempt config j ≤ config.maxDelay) ∧
    (∀ n m : Nat, n ≤ m → backoffFloor n config ≤ backoffFloor m config) := by
  refine ⟨fun attempt j _ _ => ⟨rfl, min_le_right _ _⟩, fun n m hnm => ?_⟩
  exact min_le_min (mul_le_mul_of_nonneg_left (pow_le_pow_right₀ hm hnm) hb) le_rfl

/-- Witness for C7 at the default retry configuration. -/
theorem claim_C7_backoff_algebra_witness :
    (calculateBackoff 2 DEFAULT_RETRY_CONFIG 5
        = min (DEFAULT_RETRY_CONFIG.baseDelay * DEFAULT_RETRY_CONFIG.backoffMultiplier ^ 2 + 5)
            DEFAULT_RETRY_CONFIG.maxDelay ∧
      calculateBackoff 2 DEFAULT_RETRY_CONFIG 5 ≤ DEFAULT_RETRY_CONFIG.maxDelay) ∧
    backoffFloor 1 DEFAULT_RETRY_CONFIG ≤ backoffFloor 3 DEFAULT_RETRY_CONFIG := by
  have h := claim_C7_backoff_algebra DEFAULT_RETRY_CONFIG
    (by norm_num [DEFAULT_RETRY_CONFIG]) (by norm_num [DEFAULT_RETRY_CONFIG])
  exact ⟨h.1 2 5 (by norm_num) (by norm_num), h.2 1 3 (by norm_num)⟩

/-- C8: cancelAll is idempotent: a second call yields the same end
state, and the end state has an empty backlog, no active jobs, and the
paused flag cleared. -/
theorem claim_C8_cancelAll_idempotent (s : QState) :
    cancelAll (cancelAll s) = cancelAll s ∧
    (cancelAll s).pending = [] ∧ (cancelAll s).active = [] ∧
    (cancelAll s).isPaused = false :=
  ⟨rfl, rfl, rfl, rfl⟩

/-- C5: the source's retryability predicate answers true on a classified
error exactly when the spec taxonomy assigns it kind Network, Timeout,
RateLimited or ServerError, and false on every other kind. -/
theorem claim_C5_retryable_iff_kind (e : ClassifiedError) :
    isRetryableError (toJS e) = true ↔
      (kindOf e = .network ∨ kindOf e = .timeoutKind ∨ kindOf e = .rateLimited ∨
        kindOf e = .serverError) := by
  cases e with
  | fromResponseE s =>
    simp only [toJS, isRetryableError, kindOf]
    split_ifs with h1 h2 h3 h4 <;> simp_all
  | networkE => simp [toJS, isRetryableError, kindOf]
  | cancelledE => simp [toJS, isRetryableError, kindOf]
  | unknownE => simp [toJS, isRetryableError, kindOf]
  | rateLimitE => simp [toJS, isRetryableError, kindOf]
  | authE => simp [toJS, isRetryableError, kindOf]
  | validationE => simp [toJS, isRetryableError, kindOf]

/-- C4 counterexample: with the queue's retryDelay 2000, a job failing
its first time waits 4000ms, a value no jitter draw in [0, 1000) can
reconcile with the section-4.2 calculator at 0-based attempt 0. -/
theorem claim_C4_counterexample :
    queueRetryWait qcfg3 jA = 4000 ∧
    ¬ ∃ j : ℚ, 0 ≤ j ∧ j < 1000 ∧ queueRetryWait qcfg3 jA = calculateBackoff 0 queueBackoffCfg j := by
  constructor
  · norm_num [queueRetryWait, qcfg3, jA]
  · rintro ⟨j, hj0, hj, heq⟩
    have h1 : queueRetryWait qcfg3 jA = 4000 := by norm_num [queueRetryWait, qcfg3, jA]
    rw [h1, calculateBackoff] at heq
    have h2 : queueBackoffCfg.baseDelay * queueBackoffCfg.backoffMultiplier ^ (0 : Nat) + j
        ≤ queueBackoffCfg.maxDelay := by
      norm_num [queueBackoffCfg]; linarith
    rw [min_eq_left h2] at heq
    norm_num [queueBackoffCfg] at heq
    linarith

/-- C4 (amended): the queue's retry path computes the wait as
retryDelay * 2 ^ retries where retries is the 1-based new attempt count
(so 2 * retryDelay for the first retry), with no jitter and no maxDelay
cap, and reinserts the failed job at the front of the backlog. -/
theorem claim_C4_queue_retry_wait (cfg : QCfg) (s : QState) (j : Job) :
    queueRetryWait cfg j = cfg.retryDelay * 2 ^ (j.retries + 1) ∧
    (failRetryBegin cfg s j).sleeping.head?
        = some ({ j with retries := j.retries + 1 }, queueRetryWait cfg j) ∧
    (∀ e : Job × ℚ, (failRetryFinish s e).pending = e.1 :: s.pending) :=
  ⟨rfl, rfl, fun _ => rfl⟩

/-- C6: evaluating the queue at the failing input — a single job whose
processor succeeded and whose onJobComplete observer throws — shows the
job counted both completed and retried, and re-enqueued at the front
with its retry counter bumped, contradicting the observer
fire-and-forget contract. -/
theorem claim_C6_observer_throw_corrupts :
    obsAfterThrow.completed = 1 ∧ obsAfterThrow.retried = 1 ∧
    obsFinal.pending = [{ jA with retries := 1 }] ∧ obsFinal.active = [] := by
  exact ⟨by decide, by decide, by decide, by decide⟩

/-- C2 counterexample: the abort signal fires at t = 500, in the middle
of the first 1000ms backoff sleep, yet withRetry finishes only at
t = 1000 — the end of the full computed delay — so the in-progress sleep
is not abandoned promptly; it does reject with the cancellation error
after a single attempt. -/
theorem claim_C2_counterexample :
    midSleepAbortRun = ⟨.abortErrThrown, 1000, 1⟩ ∧
    ¬ midSleepAbortRun.finish < 0 + calculateBackoff 0 DEFAULT_RETRY_CONFIG 0 := by
  have hrs : retrySleepDelay 0 DEFAULT_RETRY_CONFIG 0 ⟨false, none⟩ = 1000 := by
    norm_num [retrySleepDelay, calculateBackoff, DEFAULT_RETRY_CONFIG, min_def]
  have hd0 : signalAborted (some 500) 0 = false := by
    norm_num [signalAborted]
  have hd1 : signalAborted (some 500)
      (0 + retrySleepDelay 0 DEFAULT_RETRY_CONFIG 0 ⟨false, none⟩) = true := by
    rw [hrs]; norm_num [signalAborted]
  have hmain : midSleepAbortRun = ⟨.abortErrThrown, 1000, 1⟩ := by
    show withRetryGo DEFAULT_RETRY_CONFIG alwaysRetry alwaysFailRetryable
        (fun _ => 0) (some 500) 3 0 0 0 = _
    rw [withRetryGo, hd0]
    simp only [Bool.false_eq_true, if_false, alwaysFailRetryable, alwaysRetry, hd0, if_true]
    rw [withRetryGo, hd1]
    simp only [eq_self_iff_true, if_true]
    rw [hrs]
    norm_num
  refine ⟨hmain, ?_⟩
  rw [hmain]
  norm_num [calculateBackoff, DEFAULT_RETRY_CONFIG, min_def]

/-- C2 (amended): if the cancellation signal fires strictly during the
backoff sleep following a first retryable failure, withRetry performs no
further attempt and rejects with the cancellation error — but only after
waiting out the full computed backoff delay, at whose end the pre-attempt
abort check runs; the sleep itself is not interruptible. -/
theorem claim_C2_abort_mid_sleep (t j : ℚ) (h0 : 0 < t) (hj0 : 0 ≤ j) (hj : j < 1000)
    (ht : t ≤ calculateBackoff 0 DEFAULT_RETRY_CONFIG j) :
    withRetryRun DEFAULT_RETRY_CONFIG alwaysRetry alwaysFailRetryable (fun _ => j) (some t)
      = ⟨.abortErrThrown, calculateBackoff 0 DEFAULT_RETRY_CONFIG j, 1⟩ := by
  have hrs : retrySleepDelay 0 DEFAULT_RETRY_CONFIG j ⟨false, none⟩
      = calculateBackoff 0 DEFAULT_RETRY_CONFIG j := rfl
  have hd0 : signalAborted (some t) 0 = false := by
    simp only [signalAborted, decide_eq_false_iff_not, not_le]
    exact h0
  have hd1 : signalAborted (some t)
      (0 + retrySleepDelay 0 DEFAULT_RETRY_CONFIG j ⟨false, none⟩) = true := by
    rw [hrs, zero_add]
    simp only [signalAborted, decide_eq_true_eq]
    exact ht
  show withRetryGo DEFAULT_RETRY_CONFIG alwaysRetry alwaysFailRetryable (fun _ => j) (some t)
      3 0 0 0 = _
  rw [withRetryGo, hd0]
  simp only [Bool.false_eq_true, if_false, alwaysFailRetryable, alwaysRetry, hd0, if_true]
  rw [withRetryGo, hd1]
  simp only [eq_self_iff_true, if_true]
  rw [hrs, zero_add]

/-- Witness for the amended C2 at abort time 500 and zero jitter. -/
theorem claim_C2_abort_mid_sleep_witness :
    withRetryRun DEFAULT_RETRY_CONFIG alwaysRetry alwaysFailRetryable (fun _ => 0) (some 500)
      = ⟨.abortErrThrown, calculateBackoff 0 DEFAULT_RETRY_CONFIG 0, 1⟩ :=
  claim_C2_abort_mid_sleep 500 0 (by norm_num) le_rfl (by norm_num)
    (by norm_num [calculateBackoff, DEFAULT_RETRY_CONFIG, min_def])

/-- C9: a fast-failed execute call on an open breaker whose cooldown has
not elapsed leaves the breaker completely unchanged — totalRequests not
incremented, all counters, timestamps and state identical — rejects with
the CircuitOpenError carrying the remaining cooldown, and delivers no
state-change notification to subscribers. -/
theorem claim_C9_fast_fail_frame {E A : Type} (cfg : CBConfig E) (b : Breaker) (now : Int)
    (op : Except E A) (hs : b.state = .opened) (hr : shouldAttemptReset cfg b now = false) :
    execute cfg b now op
      = { breaker := b, result := .circuitOpen (getTimeUntilNextAttempt cfg b now),
          notifs := 0 } := by
  rw [execute.eq_def, if_pos ⟨hs, hr⟩]

/-- Witness for C9: a breaker force-opened at time 0 queried at time 10
with a 30000ms cooldown. -/
theorem claim_C9_fast_fail_frame_witness :
    execute defaultCBConfig openedAt0 10 (Except.ok () : Except Unit Unit)
      = { breaker := openedAt0, result := .circuitOpen 29990, notifs := 0 } := by
  have h := claim_C9_fast_fail_frame defaultCBConfig openedAt0 10
    (Except.ok () : Except Unit Unit) rfl (by decide)
  rw [show getTimeUntilNextAttempt defaultCBConfig openedAt0 10 = 29990 from by decide] at h
  exact h

/-- transitionTo never changes lastFailure. -/
theorem transitionTo_lastFailure (b : Breaker) (ns : CBState) :
    (transitionTo b ns).lastFailure = b.lastFailure := by
  cases ns <;> rfl

/-- transitionTo sets the state to its argument. -/
theorem transitionTo_state (b : Breaker) (ns : CBState) :
    (transitionTo b ns).state = ns := by
  cases ns <;> rfl

/-- onSuccess never moves a non-open breaker to the open state. -/
theorem onSuccess_state_ne_opened {E : Type} (cfg : CBConfig E) (b : Breaker) (now : Int)
    (h : b.state ≠ .opened) : ((onSuccess cfg b now).1).state ≠ .opened := by
  unfold onSuccess
  cases hb : b.state with
  | closed => simp [hb]
  | opened => exact absurd hb h
  | halfOpen =>
    by_cases hc : cfg.successThreshold ≤ b.halfOpenSuccesses + 1
    · simp [hb, hc, transitionTo_state]
    · simp [hb, hc]

/-- onFailure either leaves the breaker untouched (filtered error) or
stamps lastFailure with the current time. -/
theorem onFailure_cases {E : Type} (cfg : CBConfig E) (b : Breaker) (e : E) (now : Int) :
    (onFailure cfg b e now).1 = b ∨ ((onFailure cfg b e now).1).lastFailure = some now := by
  unfold onFailure
  by_cases hf : cfg.errorFilter e = false
  · left; simp [hf]
  · right
    simp only [hf, if_false]
    cases hb : b.state with
    | closed =>
      by_cases hv : cfg.volumeThreshold ≤ b.totalRequests ∧ cfg.failureThreshold ≤ b.failures + 1
      · simp [hb, hv, transitionTo_lastFailure]
      · simp [hb, hv]
    | opened => simp [hb]
    | halfOpen => simp [hb, transitionTo_lastFailure]

/-- The gated breaker is never in the open state. -/
theorem gated_state_ne_opened (b : Breaker) : (gated b).state ≠ .opened := by
  show (gate b).1.state ≠ .opened
  unfold gate
  by_cases ho : b.state = .opened
  · simp [ho, transitionTo_state]
  · simpa [ho] using ho

/-- execute preserves the open-implies-lastFailure invariant. -/
theorem execute_open_inv {E A : Type} (cfg : CBConfig E) (b : Breaker) (now : Int)
    (op : Except E A) (ih : b.state = .opened → b.lastFailure ≠ none) :
    (execute cfg b now op).breaker.state = .opened →
      (execute cfg b now op).breaker.lastFailure ≠ none := by
  by_cases hfast : b.state = .opened ∧ shouldAttemptReset cfg b now = false
  · rw [execute.eq_def, if_pos hfast]
    exact ih
  · rw [execute.eq_def, if_neg hfast]
    cases op with
    | ok a =>
      intro hst
      exact absurd hst (onSuccess_state_ne_opened cfg _ now (gated_state_ne_opened b))
    | error e =>
      intro hst
      have hst2 : ((onFailure cfg (gated b) e now).1).state = .opened := hst
      have hgoal : ((onFailure cfg (gated b) e now).1).lastFailure ≠ none := by
        rcases onFailure_cases cfg (gated b) e now with hsame | hlf
        · rw [hsame] at hst2
          exact absurd hst2 (gated_state_ne_opened b)
        · rw [hlf]
          exact Option.some_ne_none now
      exact hgoal

/-- C10: after every completed public breaker operation, an open breaker
has a non-null lastFailure, so getStats never evaluates the non-null
assertion on a null lastFailure and, for an open breaker, reports
nextAttempt = lastFailure + timeout. -/
theorem claim_C10_open_has_lastFailure {E : Type} (cfg : CBConfig E) (b : Breaker)
    (h : CBReach cfg b) :
    (b.state = .opened → b.lastFailure ≠ none) ∧
    getStats cfg b ≠ none ∧
    (∀ lf : Int, b.state = .opened → b.lastFailure = some lf →
      getStats cfg b = some ⟨b.state, b.failures, b.successes, b.totalRequests,
        b.lastFailure, b.lastSuccess, some (lf + cfg.timeout)⟩) := by
  have hinv : b.state = .opened → b.lastFailure ≠ none := by
    induction h with
    | init => intro hop; simp [initBreaker] at hop
    | exec now op hr ih => exact execute_open_inv _ _ now op ih
    | rst hr ih => intro hop; simp [resetB, initBreaker] at hop
    | fOpen now hr ih => intro hop; simp [forceOpen]
    | fClose hr ih =>
      intro hop
      rw [forceClose, transitionTo_state] at hop
      cases hop
  refine ⟨hinv, ?_, ?_⟩
  · unfold getStats
    by_cases hs : b.state = .opened
    · cases hlf : b.lastFailure with
      | none => exact absurd hlf (hinv hs)
      | some lf => simp [hs, hlf]
    · simp [hs]
  · intro lf hs hlf
    simp [getStats, hs, hlf]

/-- Witness for C10: a breaker force-opened at time 7 from the initial
state. -/
theorem claim_C10_open_has_lastFailure_witness :
    (forceOpen initBreaker 7).lastFailure ≠ none ∧
    getStats defaultCBConfig (forceOpen initBreaker 7) ≠ none := by
  have h := claim_C10_open_has_lastFailure defaultCBConfig (forceOpen initBreaker 7)
    (CBReach.fOpen 7 CBReach.init)
  exact ⟨h.1 rfl, h.2.1⟩

/-- C3: with failureThreshold 3, volumeThreshold 3, successThreshold 2:
three consecutive counted failures from the initial state open the
breaker; a fourth call before the timeout since the last failure rejects
with CircuitOpenError, leaving the breaker untouched and never invoking
the operation; a call after the timeout goes through half-open and does
run the operation; with successThreshold 2, two consecutive successes
there close the breaker with the failure counter reset. -/
theorem claim_C3_breaker_scenario (T t1 t2 t3 t4 t5 t6 : Int)
    (h4 : t4 - t3 < T) (h5 : T ≤ t5 - t3) :
    (after3 T t1 t2 t3).state = .opened ∧
    (∃ r, (execute (scenarioCfg T) (after3 T t1 t2 t3) t4
        (Except.error () : Except Unit Unit)).result = .circuitOpen r) ∧
    (execute (scenarioCfg T) (after3 T t1 t2 t3) t4
        (Except.error () : Except Unit Unit)).breaker = after3 T t1 t2 t3 ∧
    (okExec T (after3 T t1 t2 t3) t5).breaker.state = .halfOpen ∧
    (okExec T (after3 T t1 t2 t3) t5).result = .ran (.ok ()) ∧
    (okExec T ((okExec T (after3 T t1 t2 t3) t5).breaker) t6).breaker.state = .closed ∧
    (okExec T ((okExec T (after3 T t1 t2 t3) t5).breaker) t6).breaker.failures = 0 := by
  have ha : after3 T t1 t2 t3 = scenarioOpen t3 := rfl
  have hr4 : shouldAttemptReset (scenarioCfg T) (scenarioOpen t3) t4 = false := by
    simp only [shouldAttemptReset, scenarioOpen, scenarioCfg, decide_eq_false_iff_not, not_le]
    omega
  have hr5 : ¬((scenarioOpen t3).state = .opened ∧
      shouldAttemptReset (scenarioCfg T) (scenarioOpen t3) t5 = false) := by
    rintro ⟨-, hf⟩
    simp only [shouldAttemptReset, scenarioOpen, scenarioCfg, decide_eq_false_iff_not,
      not_le] at hf
    omega
  have hfast : execute (scenarioCfg T) (scenarioOpen t3) t4 (Except.error () : Except Unit Unit)
      = ⟨scenarioOpen t3,
          .circuitOpen (getTimeUntilNextAttempt (scenarioCfg T) (scenarioOpen t3) t4), 0⟩ := by
    rw [execute.eq_def, if_pos ⟨rfl, hr4⟩]
  have he5 : okExec T (scenarioOpen t3) t5 = ⟨scenarioTrial t3 t5, .ran (.ok ()), 2⟩ := by
    rw [okExec, execute.eq_def, if_neg hr5]
    rfl
  have he6 : okExec T (scenarioTrial t3 t5) t6 = ⟨scenarioClosed t3 t6, .ran (.ok ()), 2⟩ := rfl
  refine ⟨rfl, ?_, ?_, ?_, ?_, ?_, ?_⟩
  · exact ⟨getTimeUntilNextAttempt (scenarioCfg T) (scenarioOpen t3) t4, by rw [ha, hfast]⟩
  · rw [ha, hfast]
  · rw [ha, he5]
    rfl
  · rw [ha, he5]
  · rw [ha, he5, he6]
    rfl
  · rw [ha, he5, he6]
    rfl

/-- Witness for C3 at timeout 100, failures at times 0, 1, 2, a blocked
call at 50 and trial successes at 102 and 103. -/
theorem claim_C3_breaker_scenario_witness :
    (after3 100 0 1 2).state = .opened ∧
    (∃ r, (execute (scenarioCfg 100) (after3 100 0 1 2) 50
        (Except.error () : Except Unit Unit)).result = .circuitOpen r) ∧
    (execute (scenarioCfg 100) (after3 100 0 1 2) 50
        (Except.error () : Except Unit Unit)).breaker = after3 100 0 1 2 ∧
    (okExec 100 (after3 100 0 1 2) 102).breaker.state = .halfOpen ∧
    (okExec 100 (after3 100 0 1 2) 102).result = .ran (.ok ()) ∧
    (okExec 100 ((okExec 100 (after3 100 0 1 2) 102).breaker) 103).breaker.state = .closed ∧
    (okExec 100 ((okExec 100 (after3 100 0 1 2) 102).breaker) 103).breaker.failures = 0 :=
  claim_C3_breaker_scenario 100 0 1 2 50 102 103 (by omega) (by omega)

/-- handleSuccess keeps the adaptive limit within [1, configured max]. -/
theorem handleSuccess_conc (cfg : QCfg) (s : QState) (ramp : Bool)
    (h1 : 1 ≤ s.currentConcurrency) (h2 : s.currentConcurrency ≤ cfg.concurrency) :
    1 ≤ (handleSuccess cfg s ramp).currentConcurrency ∧
      (handleSuccess cfg s ramp).currentConcurrency ≤ cfg.concurrency := by
  simp only [handleSuccess]
  split_ifs with h
  · obtain ⟨hlt, -⟩ := h
    dsimp only at hlt ⊢
    omega
  · dsimp only
    omega

/-- handleError keeps the adaptive limit within [1, any bound it was
under]. -/
theorem handleError_conc (s : QState) (maxc : Nat)
    (h1 : 1 ≤ s.currentConcurrency) (h2 : s.currentConcurrency ≤ maxc) :
    1 ≤ (handleError s).currentConcurrency ∧ (handleError s).currentConcurrency ≤ maxc := by
  simp only [handleError]
  split_ifs with h
  · obtain ⟨-, hgt⟩ := h
    dsimp only at hgt ⊢
    omega
  · dsimp only
    omega

/-- dispatch never changes the adaptive limit. -/
theorem dispatch_conc (s : QState) :
    (dispatch s).currentConcurrency = s.currentConcurrency := by
  unfold dispatch
  split_ifs with hp hlen
  · rfl
  · rfl
  · cases sortByPriority s.pending with
    | nil => rfl
    | cons j rest => rfl

/-- Every atomic queue step preserves the adaptive-limit bounds. -/
theorem qstep_concInv {cfg : QCfg} {s t : QState} (hst : QStep cfg s t)
    (h : ConcInv cfg s) : ConcInv cfg t := by
  obtain ⟨h1, h2⟩ := h
  cases hst with
  | add jobs => exact ⟨h1, h2⟩
  | disp =>
    exact ⟨by rw [dispatch_conc]; exact h1, by rw [dispatch_conc]; exact h2⟩
  | succeed j ramp hmem =>
    have hs := handleSuccess_conc cfg { s with completed := s.completed + 1 } ramp h1 h2
    exact ⟨hs.1, hs.2⟩
  | succeedThrows j ramp hmem =>
    have hs := handleSuccess_conc cfg { s with completed := s.completed + 1 } ramp h1 h2
    by_cases hr : j.retries + 1 ≤ cfg.maxRetries
    · have hgoal : jobSucceedObserverThrows cfg s j ramp
          = failRetryBegin cfg (handleSuccess cfg { s with completed := s.completed + 1 } ramp)
              j := by
        unfold jobSucceedObserverThrows
        rw [if_pos hr]
      rw [hgoal]
      have he := handleError_conc
        { handleSuccess cfg { s with completed := s.completed + 1 } ramp with
          retried := (handleSuccess cfg { s with completed := s.completed + 1 } ramp).retried + 1 }
        cfg.concurrency hs.1 hs.2
      exact ⟨he.1, he.2⟩
    · have hgoal : jobSucceedObserverThrows cfg s j ramp
          = failPermanent (handleSuccess cfg { s with completed := s.completed + 1 } ramp) j := by
        unfold jobSucceedObserverThrows
        rw [if_neg hr]
      rw [hgoal]
      exact ⟨hs.1, hs.2⟩
  | failBegin j hmem hr =>
    have he := handleError_conc { s with retried := s.retried + 1 } cfg.concurrency h1 h2
    exact ⟨he.1, he.2⟩
  | failFinish e hmem => exact ⟨h1, h2⟩
  | failPerm j hmem hr => exact ⟨h1, h2⟩
  | abortedStep j hmem => exact ⟨h1, h2⟩
  | pauseStep => exact ⟨h1, h2⟩
  | resumeStep =>
    exact ⟨by rw [resumeQ, dispatch_conc]; exact h1, by rw [resumeQ, dispatch_conc]; exact h2⟩
  | cancelStep => exact ⟨h1, h2⟩

/-- C1 (amended): for every reachable queue state (with configured
concurrency ≥ 1) the adaptive limit stays within [1, configured
concurrency], and the dispatcher starts a job only when active < limit,
so a dispatch always leaves active ≤ limit; active can however
transiently exceed the limit right after the controller lowers it while
failed jobs are still inside their retry handling (see the
counterexample). -/
theorem claim_C1_concurrency_bounds (cfg : QCfg) (hc : 1 ≤ cfg.concurrency) (s : QState)
    (h : QReach cfg s) :
    (1 ≤ s.currentConcurrency ∧ s.currentConcurrency ≤ cfg.concurrency) ∧
    (s.active.length < s.currentConcurrency →
      (dispatch s).active.length ≤ (dispatch s).currentConcurrency) := by
  have hinv : ConcInv cfg s := by
    induction h with
    | init => exact ⟨hc, le_rfl⟩
    | step hr hst ih => exact qstep_concInv hst ih
  refine ⟨hinv, fun hlt => ?_⟩
  rw [dispatch_conc]
  unfold dispatch
  split_ifs with hp hlen
  · exact hlt.le
  · exact hlt.le
  · cases hsort : sortByPriority s.pending with
    | nil => exact hlt.le
    | cons j rest =>
      dsimp only
      simp only [List.length_cons]
      omega

/-- Witness for the amended C1 at the initial state of a concurrency-3
queue. -/
theorem claim_C1_concurrency_bounds_witness :
    (1 ≤ (initQ qcfg3).currentConcurrency ∧
      (initQ qcfg3).currentConcurrency ≤ qcfg3.concurrency) ∧
    ((initQ qcfg3).active.length < (initQ qcfg3).currentConcurrency →
      (dispatch (initQ qcfg3)).active.length ≤ (dispatch (initQ qcfg3)).currentConcurrency) :=
  claim_C1_concurrency_bounds qcfg3 (by decide) (initQ qcfg3) QReach.init

/-- C1 counterexample: a reachable state — three jobs dispatched at
concurrency 3, then all three fail while the first two catch-handlers
are still in their backoff sleeps — in which the adaptive scale-down
leaves 3 active jobs above the lowered limit 2, refuting
active ≤ currentConcurrencyLimit immediately after the controller lowers
the limit. -/
theorem claim_C1_counterexample :
    ∃ s : QState, QReach qcfg3 s ∧ s.currentConcurrency < s.active.length := by
  refine ⟨traceLowered, ?_, by decide⟩
  have h0 : QReach qcfg3 traceAdded := QReach.step QReach.init (QStep.add _ [jA, jB, jC])
  have h1 : QReach qcfg3 (dispatch traceAdded) := QReach.step h0 (QStep.disp _)
  have h2 : QReach qcfg3 (dispatch (dispatch traceAdded)) := QReach.step h1 (QStep.disp _)
  have h3 : QReach qcfg3 traceDispatched := QReach.step h2 (QStep.disp _)
  have h4 : QReach qcfg3 (failRetryBegin qcfg3 traceDispatched jA) :=
    QReach.step h3 (QStep.failBegin _ jA (by decide) (by decide))
  have h5 : QReach qcfg3 (failRetryBegin qcfg3 (failRetryBegin qcfg3 traceDispatched jA) jB) :=
    QReach.step h4 (QStep.failBegin _ jB (by decide) (by decide))
  exact QReach.step h5 (QStep.failBegin _ jC (by decide) (by decide))

